import Mathlib

/-!
Verification of `internal/builders/docker/pkg/builder.go` from Kong/slsa-generator.

The Go code is shallowly embedded: pure computations become Lean functions;
interaction with the operating system (git subprocesses, the filesystem, the
Docker runtime) is modelled by explicit environment records holding the results
the corresponding external calls would produce, and each orchestration function
additionally returns the list of external-process effects (git clone,
git checkout, docker run) it performs, in order.
-/

namespace SlsaGen

/-! ## Basic data model (builder.go and its package) -/

/-- `Digest` value type: a hash algorithm name together with the lowercase hex
value of the hash.  The struct is declared outside `builder.go` in the same
package; its two fields `Alg`/`Value` are fixed by their uses in `builder.go`
(`sourceDigest.Alg`, `sourceDigest.Value`, `Digest{Alg: ..., Value: ...}`). -/
structure Digest where
  Alg : String
  Value : String
deriving DecidableEq, Repr

/-- Modelled from the spec: `Digest.ToMap` (declared outside `builder.go`)
turns a digest into a one-entry map from algorithm name to hex value, the
`digest: \x7balg: hex\x7d` shape required of resource descriptors. -/
def Digest.ToMap (d : Digest) : List (String × String) :=
  [(d.Alg, d.Value)]

/-- Modelled from the spec: `DockerImage` (the spec's ImageReference, declared
outside `builder.go`) is a registry/repository path together with a content
digest; its fields are fixed by their uses in `builder.go`
(`di.Digest.Value`, `di.Digest.Alg`, `config.BuilderImage.ToString()`). -/
structure DockerImage where
  Name : String
  Digest : SlsaGen.Digest
deriving DecidableEq, Repr

/-- Modelled from the spec: the string form of an image reference always
includes the digest suffix, so that the image is content-addressed. -/
def DockerImage.ToString (d : DockerImage) : String :=
  d.Name ++ "@" ++ d.Digest.Alg ++ ":" ++ d.Digest.Value

/-- `slsa1.ResourceDescriptor` as used by `builder.go`: a URI and a digest
set.  A Go `map[string]string` is modelled as an association list; Go maps
have no duplicate keys and marshal to JSON with their keys sorted. -/
structure ResourceDescriptor where
  URI : String
  Digest : List (String × String)
deriving DecidableEq, Repr

/-- `BuildConfig` (declared outside `builder.go`): the user-supplied build
command and the artifact output glob pattern, fixed by their uses in
`builder.go` (`bc.ArtifactPath`, `db.buildConfig.Command`). -/
structure BuildConfig where
  Command : List String
  ArtifactPath : String
deriving DecidableEq, Repr

/-- Modelled from the spec: `ContainerBasedExternalParameters` (declared
outside `builder.go`) is the record
`\x7bsource, builderImage, configPath, config\x7d` that is embedded in
provenance; the spec gives exactly these four JSON fields. -/
structure ContainerBasedExternalParameters where
  Source : ResourceDescriptor
  BuilderImage : ResourceDescriptor
  ConfigPath : String
  Config : BuildConfig
deriving DecidableEq, Repr

/-- `DockerBuildConfig` (declared outside `builder.go`): its six fields are
fixed by the composite literal in `ToDockerBuildConfig`. -/
structure DockerBuildConfig where
  SourceRepo : String
  SourceDigest : SlsaGen.Digest
  BuilderImage : DockerImage
  BuildConfigPath : String
  ForceCheckout : Bool
  Verbose : Bool
deriving DecidableEq, Repr

/-- `RepoCheckoutInfo`: the path to the root of a locally checked out repo. -/
structure RepoCheckoutInfo where
  RepoRoot : String
deriving DecidableEq, Repr

/-- `intoto.Subject`: an artifact name together with its digest set. -/
structure Subject where
  Name : String
  Digest : List (String × String)
deriving DecidableEq, Repr

/-- `slsa1.ProvenanceBuildDefinition` as built by `CreateBuildDefinition`.
The Go `ExternalParameters` field is interface-typed; the only variant this
program ever stores or parses is `ContainerBasedExternalParameters`, so the
field is given that concrete type here. -/
structure ProvenanceBuildDefinition where
  BuildType : String
  ExternalParameters : ContainerBasedExternalParameters
  ResolvedDependencies : List ResourceDescriptor
deriving DecidableEq, Repr

/-- Modelled from the spec: the container-based build type identifier constant
(declared outside `builder.go`).  Its exact value is irrelevant to every claim. -/
def ContainerBasedBuildType : String :=
  "https://slsa.dev/container-based-build/v0.1?draft"

/-- `DockerBuild`: repo checked out, config file loaded, ready to run docker. -/
structure DockerBuild where
  config : DockerBuildConfig
  buildConfig : BuildConfig
  RepoInfo : RepoCheckoutInfo
deriving DecidableEq, Repr

/-- `sourceArtifact`: the source repo and its digest as a ResourceDescriptor. -/
def sourceArtifact (config : DockerBuildConfig) : ResourceDescriptor :=
  { URI := config.SourceRepo
    Digest := config.SourceDigest.ToMap }

/-- `builderImage`: the builder image as a ResourceDescriptor. -/
def builderImage (config : DockerBuildConfig) : ResourceDescriptor :=
  { URI := config.BuilderImage.ToString
    Digest := config.BuilderImage.Digest.ToMap }

/-- `DockerBuild.CreateBuildDefinition`: assembles the build definition with
container-based external parameters and the source as resolved dependency. -/
def DockerBuild.CreateBuildDefinition (db : DockerBuild) : ProvenanceBuildDefinition :=
  { BuildType := ContainerBasedBuildType
    ExternalParameters :=
      { Source := sourceArtifact db.config
        BuilderImage := builderImage db.config
        ConfigPath := db.config.BuildConfigPath
        Config := db.buildConfig }
    ResolvedDependencies := [sourceArtifact db.config] }

/-! ## JSON values

Go's `encoding/json` is modelled on an abstract syntax of JSON values.  The
program only ever serializes strings, arrays of strings, and objects, so
numbers/booleans/null are not needed by any claim and are omitted from the
value syntax. -/

/-- A JSON value: a string, an array, or an object with ordered fields. -/
inductive Json where
  | str (s : String)
  | arr (elems : List Json)
  | obj (fields : List (String × Json))

/-- Insert a key/value pair into a key-sorted association list, replacing an
existing binding of the same key.  This is the canonical representation of a
Go map: unordered, duplicate-free, marshalled with keys in sorted order. -/
def mapInsert (k : String) (v : Json) : List (String × Json) → List (String × Json)
  | [] => [(k, v)]
  | (k₀, v₀) :: rest =>
    if k = k₀ then (k, v) :: rest
    else if k < k₀ then (k, v) :: (k₀, v₀) :: rest
    else (k₀, v₀) :: mapInsert k v rest

/-- Read an ordered field list into a canonical (sorted, duplicate-free) one:
this is what Go does when it unmarshals a JSON object into a
`map[string]interface\x7b\x7d` (later duplicates overwrite earlier ones) and
marshals the map back (keys come out sorted). -/
def canonFieldList : List (String × Json) → List (String × Json)
  | [] => []
  | (k, v) :: rest => mapInsert k v (canonFieldList rest)

mutual

/-- `canonJson` models the generic re-marshalling step of `ParseProvenance`:
`json.Unmarshal` of the external-parameters sub-document into an
`interface\x7b\x7d` produces nested Go maps, and `json.Marshal` of those maps
prints every object with sorted, duplicate-free keys, leaving strings and
array order unchanged. -/
def canonJson : Json → Json
  | .str s => .str s
  | .arr elems => .arr (canonList elems)
  | .obj fields => .obj (canonFieldList (canonFields fields))

/-- Canonicalize every element of a JSON array. -/
def canonList : List Json → List Json
  | [] => []
  | x :: xs => canonJson x :: canonList xs

/-- Canonicalize every value of a JSON object field list. -/
def canonFields : List (String × Json) → List (String × Json)
  | [] => []
  | (k, v) :: rest => (k, canonJson v) :: canonFields rest

end

/-! ## Marshalling (Go struct → JSON value)

Field names follow the spec's JSON shape for external parameters:
`\x7bsource: \x7buri, digest\x7d, builderImage: \x7buri, digest\x7d,
configPath, config\x7d`, with the config holding the command list and the
artifact path pattern.  Go marshals a struct's fields in declaration order
and a map's keys in sorted order. -/

/-- Marshal a digest set (a Go `map[string]string`): keys sorted. -/
def marshalDigestSet (ds : List (String × String)) : Json :=
  .obj (canonFieldList (ds.map (fun p => (p.1, Json.str p.2))))

/-- Marshal a `ResourceDescriptor`. -/
def ResourceDescriptor.marshal (r : ResourceDescriptor) : Json :=
  .obj [("uri", .str r.URI), ("digest", marshalDigestSet r.Digest)]

/-- Marshal a `BuildConfig`. -/
def BuildConfig.marshal (bc : BuildConfig) : Json :=
  .obj [("command", .arr (bc.Command.map Json.str)),
        ("artifactPath", .str bc.ArtifactPath)]

/-- Marshal `ContainerBasedExternalParameters`, the serialization used when a
build definition is embedded into a provenance statement. -/
def ContainerBasedExternalParameters.marshal
    (ep : ContainerBasedExternalParameters) : Json :=
  .obj [("source", ep.Source.marshal),
        ("builderImage", ep.BuilderImage.marshal),
        ("configPath", .str ep.ConfigPath),
        ("config", ep.Config.marshal)]

/-! ## Unmarshalling (JSON value → Go struct)

Go's `json.Unmarshal` into a struct looks fields up by name (later duplicate
keys overwrite earlier ones), leaves the zero value for a missing field, and
fails on a type mismatch. -/

/-- Look a field up in an ordered JSON object field list; as in Go, the last
occurrence of a duplicated key wins. -/
def lookupField (fields : List (String × Json)) (key : String) : Option Json :=
  match fields with
  | [] => none
  | (k, v) :: rest =>
    match lookupField rest key with
    | some r => some r
    | none => if k = key then some v else none

/-- Unmarshal a JSON value into a Go `string` field: a missing field leaves
the zero value `""`; a non-string value is a type error. -/
def unmarshalString : Option Json → Except String String
  | none => .ok ""
  | some (.str s) => .ok s
  | some _ => .error "json: cannot unmarshal value into field of type string"

/-- Decode every element of a JSON array as a string. -/
def decodeStringElems : List Json → Except String (List String)
  | [] => .ok []
  | .str s :: rest =>
    match decodeStringElems rest with
    | .ok tail => .ok (s :: tail)
    | .error e => .error e
  | _ :: _ => .error "json: cannot unmarshal value into element of type string"

/-- Unmarshal a JSON value into a Go `[]string` field: a missing field leaves
the zero value (nil slice); every element must be a string. -/
def unmarshalStringList : Option Json → Except String (List String)
  | none => .ok []
  | some (.arr elems) => decodeStringElems elems
  | some _ => .error "json: cannot unmarshal value into field of type slice"

/-- Decode every value of a JSON object field list as a string. -/
def decodeStringFields : List (String × Json) → Except String (List (String × String))
  | [] => .ok []
  | (k, .str s) :: rest =>
    match decodeStringFields rest with
    | .ok tail => .ok ((k, s) :: tail)
    | .error e => .error e
  | _ :: _ => .error "json: cannot unmarshal value into element of type string"

/-- Unmarshal a JSON value into a Go `map[string]string` field, producing the
canonical association list; every value must be a string. -/
def unmarshalDigestSet : Option Json → Except String (List (String × String))
  | none => .ok []
  | some (.obj fields) => decodeStringFields (canonFieldList fields)
  | some _ => .error "json: cannot unmarshal value into field of type map"

/-- Unmarshal a `ResourceDescriptor`. -/
def unmarshalResourceDescriptor : Option Json → Except String ResourceDescriptor
  | none => .ok { URI := "", Digest := [] }
  | some (.obj fields) =>
    match unmarshalString (lookupField fields "uri") with
    | .error e => .error e
    | .ok uri =>
      match unmarshalDigestSet (lookupField fields "digest") with
      | .error e => .error e
      | .ok digest => .ok { URI := uri, Digest := digest }
  | some _ => .error "json: cannot unmarshal value into field of type ResourceDescriptor"

/-- Unmarshal a `BuildConfig`. -/
def unmarshalBuildConfig : Option Json → Except String BuildConfig
  | none => .ok { Command := [], ArtifactPath := "" }
  | some (.obj fields) =>
    match unmarshalStringList (lookupField fields "command") with
    | .error e => .error e
    | .ok command =>
      match unmarshalString (lookupField fields "artifactPath") with
      | .error e => .error e
      | .ok artifactPath => .ok { Command := command, ArtifactPath := artifactPath }
  | some _ => .error "json: cannot unmarshal value into field of type BuildConfig"

/-- Unmarshal `ContainerBasedExternalParameters`. -/
def unmarshalExternalParameters (j : Json) : Except String ContainerBasedExternalParameters :=
  match j with
  | .obj fields =>
    match unmarshalResourceDescriptor (lookupField fields "source") with
    | .error e => .error e
    | .ok source =>
      match unmarshalResourceDescriptor (lookupField fields "builderImage") with
      | .error e => .error e
      | .ok builder =>
        match unmarshalString (lookupField fields "configPath") with
        | .error e => .error e
        | .ok configPath =>
          match unmarshalBuildConfig (lookupField fields "config") with
          | .error e => .error e
          | .ok config =>
            .ok { Source := source, BuilderImage := builder
                  ConfigPath := configPath, Config := config }
  | _ => .error "could not unmarshal JSON bytes into a BuildConfig"

/-- The external-parameters handling of `ParseProvenance`: the outer generic
unmarshal leaves the sub-document as untyped nested maps (`canonJson`), which
are re-marshalled and then unmarshalled into the concrete container-based
shape. -/
def parseExternalParameters (j : Json) : Except String ContainerBasedExternalParameters :=
  unmarshalExternalParameters (canonJson j)

/-- Decidable equality for `Except` results, used to evaluate the model on
concrete inputs. -/
instance {e a : Type} [DecidableEq e] [DecidableEq a] : DecidableEq (Except e a) := fun x y =>
  match x, y with
  | .ok v, .ok w =>
    if h : v = w then isTrue (by rw [h]) else isFalse (fun hh => by cases hh; exact h rfl)
  | .error v, .error w =>
    if h : v = w then isTrue (by rw [h]) else isFalse (fun hh => by cases hh; exact h rfl)
  | .ok _, .error _ => isFalse (fun hh => by cases hh)
  | .error _, .ok _ => isFalse (fun hh => by cases hh)

/-! ## Git client (builder.go)

`GitClient` runs `git` subprocesses and changes the working directory.  The
outside world is modelled by `GitEnv`: the outputs the relevant `git`
commands would produce, the current working directory, and the results of
the temp-dir/clone/checkout steps of a fresh fetch.  Functions that run
external processes also return the list of `Effect`s performed, in order. -/

/-- An external-process invocation performed by the builder. -/
inductive Effect where
  | clone
  | checkout
  | dockerRun
deriving DecidableEq, Repr

/-- The errors of the git-client functions in `builder.go`.  Constructors
correspond to the distinct failure returns of the Go code:
`nonSha1Digest` is the configuration error of `verifyOrFetchRepo`,
`commitMismatch` wraps `errGitCommitMismatch` (carrying the commit the repo
is actually checked out at), `tempDirFail` is the `os.MkdirTemp` failure,
`gitFetch` wraps `errGitFetch`, and `gitCheckout` wraps `errGitCheckout`
(including the re-verification failure inside `checkoutGitCommit`). -/
inductive GitError where
  | nonSha1Digest
  | commitMismatch (got : String)
  | tempDirFail
  | gitFetch
  | gitCheckout
deriving DecidableEq, Repr

/-- What `git` inspection commands report about a checkout: the raw stdout of
`git rev-parse --verify HEAD` (`none` when the command fails, e.g. the
directory is not a git repository) and of
`git show-ref --hash --verify REF` for each ref. -/
structure GitView where
  revParseHEAD : Option String
  showRef : String → Option String

/-- The world a `GitClient` interacts with.  `pre` is what the git commands
report in the current working directory; `cwd` is `os.Getwd()` there.
`mkdirTemp` is the result of `os.MkdirTemp` (`none` = failure); `cloneOk` and
`checkoutOk` are the exit outcomes of the external `git clone` and
`git checkout` processes; `clonedRepoCwd` is `os.Getwd()` after changing into
the cloned repo; `post` is what the git commands report there.  Directory
changes and log-file bookkeeping have no observable effect on any claim and
are not modelled. -/
structure GitEnv where
  pre : GitView
  cwd : String
  mkdirTemp : Option String
  cloneOk : Bool
  clonedRepoCwd : String
  checkoutOk : Bool
  post : GitView

/-- `GitClient` (builder.go).  `repoRoot` is the `RepoRoot` of the client's
`checkoutInfo`, initialised to the empty string by `newGitClient` and set
only by `fetchSourcesFromGitRepo`.  Log-file lists are not modelled. -/
structure GitClient where
  sourceRepo : String
  sourceRef : Option String
  sourceDigest : SlsaGen.Digest
  forceCheckout : Bool
  verbose : Bool
  depth : Int
  repoRoot : String
deriving DecidableEq, Repr

/-- The scheme position of `net/url.Parse` on a raw URL: either the URL is
malformed (a `:` appears at position 0), or it has no scheme (no valid
scheme prefix ending in `:`), or it has a scheme, which `Parse` lowercases. -/
inductive SchemeResult where
  | malformed
  | noScheme
  | scheme (s : String)
deriving DecidableEq, Repr

/-- Character class of `net/url`'s scheme scanner after the first byte:
ASCII letters, digits, `+`, `-` and `.`. -/
def isSchemeTailChar (c : Char) : Bool :=
  c.isAlpha || c.isDigit || c = '+' || c = '-' || c = '.'

/-- The scheme scanner of `net/url.Parse`: scan while bytes are valid scheme
characters (the first must be a letter); a `:` at position 0 is an error, a
`:` after a valid prefix ends the scheme, any other byte (or the end of the
string) means the URL has no scheme.  `i` is the current position. -/
def getSchemeAux : List Char → Nat → SchemeResult
  | [], _ => .noScheme
  | c :: rest, i =>
    if c.isAlpha then getSchemeAux rest (i + 1)
    else if c.isDigit || c = '+' || c = '-' || c = '.' then
      if i = 0 then .noScheme else getSchemeAux rest (i + 1)
    else if c = ':' then
      if i = 0 then .malformed else .scheme ""
    else .noScheme

/-- The scheme of a raw URL as determined by `net/url.Parse`, lowercased as
`Parse` does.  (`Parse` can also reject malformed input after the scheme;
the claims quantify over valid URIs only, so only the scheme part is
modelled.) -/
def getScheme (s : String) : SchemeResult :=
  match getSchemeAux s.toList 0 with
  | .malformed => .malformed
  | .noScheme => .noScheme
  | .scheme _ =>
    .scheme (String.mk (((s.toList).takeWhile (fun c => c ≠ ':')).map Char.toLower))

/-- `strings.Replace(s, pat, rep, 1)` for a non-empty pattern: replace the
first occurrence of `pat` in `s`, if any. -/
def replaceFirstList (s pat rep : List Char) : List Char :=
  match s with
  | [] => []
  | c :: rest =>
    if pat.isPrefixOf (c :: rest) then rep ++ (c :: rest).drop pat.length
    else c :: replaceFirstList rest pat rep

/-- String wrapper for `replaceFirstList`. -/
def replaceFirst (s pat rep : String) : String :=
  String.mk (replaceFirstList s.toList pat.toList rep.toList)

/-- `strings.TrimSuffix(s, suffix)`. -/
def trimSuffix (s suf : String) : String :=
  if suf.toList.isSuffixOf s.toList then
    String.mk (s.toList.take (s.toList.length - suf.toList.length))
  else s

/-- Split a character list at every occurrence of the separator character:
`strings.Split` for a one-character separator, as used with `"@"` and `":"`. -/
def splitOnCharList (sep : Char) : List Char → List (List Char)
  | [] => [[]]
  | c :: rest =>
    let groups := splitOnCharList sep rest
    if c = sep then [] :: groups
    else
      match groups with
      | [] => [[c]]
      | g :: gs => (c :: g) :: gs

/-- `strings.Split(s, sep)` for a one-character separator. -/
def splitOnChar (sep : Char) (s : String) : List String :=
  (splitOnCharList sep s.toList).map String.mk

/-- `strings.TrimSpace`: drop leading and trailing whitespace. -/
def trimSpace (s : String) : String :=
  String.mk (((s.toList.dropWhile Char.isWhitespace).reverse.dropWhile
    Char.isWhitespace).reverse)

/-- The errors of `newGitClient`: the repo URI does not parse, its scheme is
unsupported, or it contains more than one `@`. -/
inductive NewClientError where
  | parseFailure
  | unsupportedScheme (s : String)
  | invalidFormat
deriving DecidableEq, Repr

/-- The URI-parse-and-scheme-switch step of `newGitClient`: `https` is kept,
`git+https` and `https+git` are rewritten to `https` by replacing the first
occurrence of the scheme substring, and any other scheme (including the
empty scheme of a URI with no `scheme:` part) is an unsupported-scheme
error. -/
def normalizeScheme (repo : String) : Except NewClientError String :=
  match getScheme repo with
  | .malformed => .error .parseFailure
  | other =>
    let scheme := match other with
      | .scheme s => s
      | _ => ""
    if scheme = "https" then .ok repo
    else if scheme = "git+https" then .ok (replaceFirst repo "git+https" "https")
    else if scheme = "https+git" then .ok (replaceFirst repo "https+git" "https")
    else .error (.unsupportedScheme scheme)

/-- `newGitClient` (builder.go): parse the repo URI, normalize the transport
scheme (`git+https`/`https+git` are rewritten to `https`, anything other
than `https` is rejected), split off an optional `@ref` suffix, and build
the client with an empty `RepoCheckoutInfo`. -/
def newGitClient (config : DockerBuildConfig) (depth : Int) : Except NewClientError GitClient :=
  match normalizeScheme config.SourceRepo with
    | .error e => .error e
    | .ok repo =>
      match splitOnChar '@' repo with
      | [_] => .ok
          { sourceRepo := repo
            sourceRef := none
            sourceDigest := config.SourceDigest
            forceCheckout := config.ForceCheckout
            verbose := config.Verbose
            depth := depth
            repoRoot := "" }
      | [_, ref] => .ok
          { sourceRepo := trimSuffix repo ("@" ++ ref)
            sourceRef := some ref
            sourceDigest := config.SourceDigest
            forceCheckout := config.ForceCheckout
            verbose := config.Verbose
            depth := depth
            repoRoot := "" }
      | _ => .error .invalidFormat

/-- `GitClient.verifyRefAndCommit`: run `git rev-parse --verify HEAD` and, if
a source ref is given, `git show-ref --hash --verify REF`; a command failure
means the directory is not a git repo (`(false, nil)`); a trimmed output that
differs from the expected digest value is a commit-mismatch error. -/
def GitClient.verifyRefAndCommit (v : GitView) (c : GitClient) : Bool × Option GitError :=
  match v.revParseHEAD with
  | none => (false, none)
  | some out =>
    let lastCommitID := trimSpace out
    if lastCommitID ≠ c.sourceDigest.Value then
      (false, some (.commitMismatch lastCommitID))
    else
      match c.sourceRef with
      | none => (true, none)
      | some ref =>
        match v.showRef ref with
        | none => (false, none)
        | some out₂ =>
          let refCommitID := trimSpace out₂
          if refCommitID ≠ c.sourceDigest.Value then
            (false, some (.commitMismatch refCommitID))
          else (true, none)

/-- `GitClient.fetchSourcesFromGitRepo`: make a temp directory, clone the
repo there, move into the cloned root, check out the expected commit, and
re-verify; on success the client's checkout info records the new root. -/
def GitClient.fetchSourcesFromGitRepo (env : GitEnv) (c : GitClient) :
    Except GitError GitClient × List Effect :=
  match env.mkdirTemp with
  | none => (.error .tempDirFail, [])
  | some _targetDir =>
    if ¬env.cloneOk then (.error .gitFetch, [.clone])
    else
      let cwd := env.clonedRepoCwd
      if ¬env.checkoutOk then (.error .gitCheckout, [.clone, .checkout])
      else
        match GitClient.verifyRefAndCommit env.post c with
        | (true, none) => (.ok { c with repoRoot := cwd }, [.clone, .checkout])
        | _ => (.error .gitCheckout, [.clone, .checkout])

/-- `GitClient.verifyOrFetchRepo`: require a sha1 source digest, verify the
current checkout, and fetch fresh when the directory is not checked out at
the expected commit or a force checkout is requested. -/
def GitClient.verifyOrFetchRepo (env : GitEnv) (c : GitClient) :
    Except GitError GitClient × List Effect :=
  if c.sourceDigest.Alg ≠ "sha1" then (.error .nonSha1Digest, [])
  else
    match GitClient.verifyRefAndCommit env.pre c with
    | (_, some e) =>
      if ¬c.forceCheckout then (.error e, [])
      else GitClient.fetchSourcesFromGitRepo env c
    | (repoIsCheckedOut, none) =>
      if ¬repoIsCheckedOut ∨ c.forceCheckout then GitClient.fetchSourcesFromGitRepo env c
      else (.ok c, [])

/-- `GitClient.Fetch`: verify or fetch, then return the client's
`RepoCheckoutInfo`. -/
def GitClient.Fetch (env : GitEnv) (c : GitClient) :
    Except GitError RepoCheckoutInfo × List Effect :=
  match GitClient.verifyOrFetchRepo env c with
  | (.error e, tr) => (.error e, tr)
  | (.ok c₂, tr) => (.ok { RepoRoot := c₂.repoRoot }, tr)

/-! ## Build orchestrator (builder.go)

The filesystem and the Docker runtime are modelled by `FsEnv`/`Env` records
holding the results the corresponding calls would produce. -/

/-- Results of filesystem and hashing operations used by the builder.
`glob` is `filepath.Glob` (`.error` = `ErrBadPattern`); `readFile` is
`utils.SafeReadFile` (file contents as bytes); `sha256` is
`crypto/sha256.Sum256`; `abs`/`rel` are `filepath.Abs`/`filepath.Rel`; and
`createAndWrite` is `utils.CreateNewFileUnderDirectory` followed by the
write of the data (arguments: relative path, output folder, data). -/
structure FsEnv where
  glob : String → Except Unit (List String)
  readFile : String → Except Unit (List Nat)
  sha256 : List Nat → List Nat
  abs : String → Except Unit String
  rel : String → String → Except Unit String
  createAndWrite : String → String → List Nat → Except Unit Unit

/-- The world the build orchestrator interacts with: the git world, the
result of `LoadBuildConfigFromFile` (declared outside `builder.go`), the
filesystem, and the exit outcome of the `docker run` process. -/
structure Env where
  git : GitEnv
  loadBuildConfig : Except Unit BuildConfig
  fs : FsEnv
  dockerRunOk : Bool

/-- The errors of the build-orchestration functions in `builder.go`:
`sourceFetch` wraps a fetch failure, `configParse` a config-file load
failure, `malformedPattern` is the `ErrBadPattern` wrap of
`CheckExistingFiles`/`inspectAndWriteArtifacts`, `preexistingArtifact` is
the ≥1-match failure of `CheckExistingFiles` (carrying the match count),
`buildExecution` a `docker run` failure, `noArtifactsProduced` the
zero-match failure after a successful build, `readFailure` a
`SafeReadFile` failure, and `outputWrite` any failure of the
output-folder write path (`Abs`/`Rel`/create/write). -/
inductive BuildError where
  | sourceFetch (e : GitError)
  | configParse
  | malformedPattern (pattern : String)
  | preexistingArtifact (pattern : String) (count : Nat)
  | buildExecution
  | noArtifactsProduced (pattern : String)
  | readFailure (path : String)
  | outputWrite
deriving DecidableEq, Repr

/-- `CheckExistingFiles`: error if the glob pattern is malformed or matches
at least one existing file; success on zero matches. -/
def CheckExistingFiles (glob : String → Except Unit (List String)) (pattern : String) :
    Except BuildError Unit :=
  match glob pattern with
  | .error _ => .error (.malformedPattern pattern)
  | .ok found =>
    if found.length = 0 then .ok ()
    else .error (.preexistingArtifact pattern found.length)

/-- `Builder`: a repo fetcher together with the build configuration.  The
only `Fetcher` in the program is `GitClient`, installed by
`NewBuilderWithGitFetcher`. -/
structure Builder where
  repoFetcher : GitClient
  config : DockerBuildConfig
deriving DecidableEq, Repr

/-- `NewBuilderWithGitFetcher`: build a git client (depth 0) for the config. -/
def NewBuilderWithGitFetcher (config : DockerBuildConfig) : Except NewClientError Builder :=
  match newGitClient config 0 with
  | .error e => .error e
  | .ok gc => .ok { repoFetcher := gc, config := config }

/-- `Builder.SetUpBuildState`: (1) verify or fetch the source repo, (2) load
and parse the config file, (3) check that the artifact pattern matches no
existing files; on success return the `DockerBuild` state.  The effect
trace is the fetch step's trace: no other step runs an external process. -/
def Builder.SetUpBuildState (env : Env) (b : Builder) :
    Except BuildError DockerBuild × List Effect :=
  match GitClient.Fetch env.git b.repoFetcher with
  | (.error e, tr) => (.error (.sourceFetch e), tr)
  | (.ok repoInfo, tr) =>
    match env.loadBuildConfig with
    | .error _ => (.error .configParse, tr)
    | .ok bc =>
      match CheckExistingFiles env.fs.glob bc.ArtifactPath with
      | .error e => (.error e, tr)
      | .ok _ => (.ok { config := b.config, buildConfig := bc, RepoInfo := repoInfo }, tr)

/-- The argument list `runDockerRun` passes to the `docker` binary. -/
def dockerRunArgs (cwd : String) (db : DockerBuild) : List String :=
  ["run", "--volume=" ++ cwd ++ ":/workspace", "--workdir=/workspace", "--rm"]
    ++ [db.CreateBuildDefinition.ExternalParameters.BuilderImage.URI]
    ++ db.buildConfig.Command

/-- `runDockerRun`: invoke the container runtime (one `dockerRun` effect);
the captured-log bookkeeping has no effect on any claim and is not
modelled.  Fails when the external process exits with an error. -/
def runDockerRun (env : Env) (_db : DockerBuild) : Except BuildError Unit × List Effect :=
  (if env.dockerRunOk then .ok () else .error .buildExecution, [.dockerRun])

/-- Whether a character is a lowercase hexadecimal digit, i.e. one of the
characters of the `encoding/hex` table. -/
def isLowerHexDigit (c : Char) : Bool :=
  c.isDigit || (Char.ofNat 97 ≤ c && c ≤ Char.ofNat 102)

/-- Indexing the lowercase table of `encoding/hex` with a nibble: digits are
offset from code point 48, letters from code point 87. -/
def hexDigit (n : Nat) : Char :=
  if n % 16 < 10 then Char.ofNat (48 + n % 16) else Char.ofNat (87 + n % 16)

/-- `hex.EncodeToString` over a byte list (each byte < 256): high nibble
then low nibble, lowercase. -/
def hexEncodeList : List Nat → List Char
  | [] => []
  | b :: rest => hexDigit (b / 16) :: hexDigit (b % 16) :: hexEncodeList rest

/-- String form of `hex.EncodeToString`. -/
def hexEncode (bytes : List Nat) : String :=
  String.mk (hexEncodeList bytes)

/-- `filepath.Base` on a Unix path: `"."` for the empty path, a single
separator if the path is all separators, otherwise the last element after
stripping trailing separators. -/
def filepathBase (p : String) : String :=
  if p = "" then "."
  else
    let stripped := (p.toList.reverse.dropWhile (fun c => c = '/')).reverse
    if stripped = [] then "/"
    else String.mk ((stripped.reverse.takeWhile (fun c => c ≠ '/')).reverse)

/-- `toIntotoSubject`: the file name together with the lowercase hex SHA256
digest of the file contents. -/
def toIntotoSubject (sha256 : List Nat → List Nat) (data : List Nat) (filePath : String) :
    Subject :=
  { Name := filepathBase filePath
    Digest := [("sha256", hexEncode (sha256 data))] }

/-- The output-folder branch of `inspectAndWriteArtifacts`: make the path
absolute when a root is known, compute the path relative to the root, and
create and write the output file under the output folder. -/
def writeOutputFile (fs : FsEnv) (path : String) (data : List Nat)
    (outputFolder root : String) : Except BuildError Unit :=
  match (if root ≠ "" then fs.abs path else .ok path) with
  | .error _ => .error .outputWrite
  | .ok absPath =>
    match fs.rel root absPath with
    | .error _ => .error .outputWrite
    | .ok relPath =>
      match fs.createAndWrite relPath outputFolder data with
      | .error _ => .error .outputWrite
      | .ok _ => .ok ()

/-- The per-match loop of `inspectAndWriteArtifacts`: read each file, build
its subject, and (when an output folder is given) copy the file there. -/
def processMatches (fs : FsEnv) (outputFolder root : String) :
    List String → Except BuildError (List Subject)
  | [] => .ok []
  | path :: rest =>
    match fs.readFile path with
    | .error _ => .error (.readFailure path)
    | .ok data =>
      let subject := toIntotoSubject fs.sha256 data path
      match (if outputFolder ≠ "" then writeOutputFile fs path data outputFolder root
             else .ok ()) with
      | .error e => .error e
      | .ok _ =>
        match processMatches fs outputFolder root rest with
        | .error e => .error e
        | .ok subjects => .ok (subject :: subjects)

/-- `inspectAndWriteArtifacts`: evaluate the artifact glob (a malformed
pattern is an error), fail when it matches no files, and otherwise digest
(and optionally copy) every matched file. -/
def inspectAndWriteArtifacts (fs : FsEnv) (pattern outputFolder root : String) :
    Except BuildError (List Subject) :=
  match fs.glob pattern with
  | .error _ => .error (.malformedPattern pattern)
  | .ok found =>
    if found.length = 0 then .error (.noArtifactsProduced pattern)
    else processMatches fs outputFolder root found

/-- `DockerBuild.BuildArtifacts`: run the containerized build, then inspect
the working tree for produced artifacts. -/
def DockerBuild.BuildArtifacts (env : Env) (db : DockerBuild) (outputFolder : String) :
    Except BuildError (List Subject) × List Effect :=
  match runDockerRun env db with
  | (.error e, tr) => (.error e, tr)
  | (.ok _, tr) =>
    (inspectAndWriteArtifacts env.fs db.buildConfig.ArtifactPath outputFolder
      db.RepoInfo.RepoRoot, tr)

/-! ## Provenance parsing and reconstruction (builder.go) -/

/-- `slsa1.ProvenancePredicate`, restricted to the build definition used by
`builder.go`. -/
structure ProvenancePredicate where
  BuildDefinition : ProvenanceBuildDefinition
deriving DecidableEq, Repr

/-- `ProvenanceStatementSLSA1`: the statement header carries no data any
claim depends on, so only the predicate is modelled. -/
structure ProvenanceStatementSLSA1 where
  Predicate : ProvenancePredicate
deriving DecidableEq, Repr

/-- The errors of `ToDockerBuildConfig`: the builder-image URI fails to
validate, the declared image digest differs from the digest in the image
reference, or the source has no sha1 digest. -/
inductive ProvenanceError where
  | validatingImage
  | invalidImageDigest
  | missingSourceDigest
deriving DecidableEq, Repr

/-- Modelled from the spec: `validateDockerImage` (declared outside
`builder.go`) parses a content-addressed image reference of the form
`NAME@ALG:VALUE` into an image with its digest; anything else is invalid. -/
def validateDockerImage (image : String) : Except Unit DockerImage :=
  match splitOnChar '@' image with
  | [name, digest] =>
    match splitOnChar ':' digest with
    | [alg, value] => .ok { Name := name, Digest := { Alg := alg, Value := value } }
    | _ => .error ()
  | _ => .error ()

/-- Go map lookup with its comma-ok form: the first binding of the key. -/
def digestLookup (ds : List (String × String)) (alg : String) : Option String :=
  match ds with
  | [] => none
  | (k, v) :: rest => if k = alg then some v else digestLookup rest alg

/-- `ProvenanceStatementSLSA1.ToDockerBuildConfig`: validate the builder
image, require its declared digest to match the digest in the image
reference (a missing map entry reads as the Go zero value `""`), require a
sha1 source digest, and rebuild the `DockerBuildConfig` from the external
parameters. -/
def ProvenanceStatementSLSA1.ToDockerBuildConfig (p : ProvenanceStatementSLSA1)
    (forceCheckout : Bool) : Except ProvenanceError DockerBuildConfig :=
  let ep := p.Predicate.BuildDefinition.ExternalParameters
  match validateDockerImage ep.BuilderImage.URI with
  | .error _ => .error .validatingImage
  | .ok di =>
    if di.Digest.Value ≠ (digestLookup ep.BuilderImage.Digest di.Digest.Alg).getD "" then
      .error .invalidImageDigest
    else
      match digestLookup ep.Source.Digest "sha1" with
      | none => .error .missingSourceDigest
      | some val =>
        .ok { SourceRepo := ep.Source.URI
              SourceDigest := { Alg := "sha1", Value := val }
              BuilderImage := di
              BuildConfigPath := ep.ConfigPath
              ForceCheckout := forceCheckout
              Verbose := false }

/-! ## Concrete instances

Closed instances of the environment and client records, used to evaluate the
model at concrete inputs. -/

/-- A git view reporting a checkout at commit `aaaa`. -/
def viewAt (out : String) : GitView :=
  { revParseHEAD := some out
    showRef := fun _ => none }

/-- A git environment whose working directory is a checkout at commit `aaaa`
and in which a fresh fetch would also succeed. -/
def w2env : GitEnv :=
  { pre := viewAt "aaaa\n"
    cwd := "/workspace/project"
    mkdirTemp := some "/tmp/release-1"
    cloneOk := true
    clonedRepoCwd := "/tmp/release-1/repo"
    checkoutOk := true
    post := viewAt "aaaa\n" }

/-- A git client expecting commit `aaaa` (sha1), no ref, no force checkout. -/
def w2client : GitClient :=
  { sourceRepo := "https://github.com/org/repo"
    sourceRef := none
    sourceDigest := { Alg := "sha1", Value := "aaaa" }
    forceCheckout := false
    verbose := false
    depth := 0
    repoRoot := "" }

/-- A build config used to instantiate the scheme-normalization claim. -/
def w3cfg : DockerBuildConfig :=
  { SourceRepo := "git+https://github.com/org/repo"
    SourceDigest := { Alg := "sha1", Value := "aaaa" }
    BuilderImage := { Name := "img", Digest := { Alg := "sha256", Value := "bb" } }
    BuildConfigPath := "build.toml"
    ForceCheckout := false
    Verbose := false }

/-- A git environment whose working directory is a checkout at commit `bbbb`. -/
def w4env : GitEnv :=
  { pre := viewAt "bbbb\n"
    cwd := "/workspace/project"
    mkdirTemp := some "/tmp/release-1"
    cloneOk := true
    clonedRepoCwd := "/tmp/release-1/repo"
    checkoutOk := true
    post := viewAt "bbbb\n" }

/-- A git client expecting commit `aaaa` (sha1). -/
def w4client : GitClient :=
  { sourceRepo := "https://github.com/org/repo"
    sourceRef := none
    sourceDigest := { Alg := "sha1", Value := "aaaa" }
    forceCheckout := false
    verbose := false
    depth := 0
    repoRoot := "" }

/-- A git client whose source digest algorithm is sha256, not sha1. -/
def w5client : GitClient :=
  { sourceRepo := "https://github.com/org/repo"
    sourceRef := none
    sourceDigest := { Alg := "sha256", Value := "aaaa" }
    forceCheckout := false
    verbose := false
    depth := 0
    repoRoot := "" }

/-- A filesystem in which the artifact pattern already matches one file. -/
def w6fs : FsEnv :=
  { glob := fun _ => .ok ["dist/app.tar.gz"]
    readFile := fun _ => .ok [1, 2]
    sha256 := fun _ => [171]
    abs := fun p => .ok p
    rel := fun _ p => .ok p
    createAndWrite := fun _ _ _ => .ok () }

/-- An orchestrator environment for the pre-flight-check claim: the repo is
checked out at the expected commit, the config file loads, and the artifact
pattern matches one existing file. -/
def w6env : Env :=
  { git := w2env
    loadBuildConfig := .ok { Command := ["make"], ArtifactPath := "dist/*.tar.gz" }
    fs := w6fs
    dockerRunOk := true }

/-- The builder under test for the pre-flight-check claim. -/
def w6builder : Builder :=
  { repoFetcher := w2client
    config := w3cfg }

/-- An orchestrator environment for the artifact-inspection claim. -/
def w7env : Env :=
  { git := w2env
    loadBuildConfig := .ok { Command := ["make"], ArtifactPath := "dist/*.tar.gz" }
    fs := w6fs
    dockerRunOk := true }

/-- The build state under test for the artifact-inspection claim. -/
def w7db : DockerBuild :=
  { config := w3cfg
    buildConfig := { Command := ["make"], ArtifactPath := "dist/*.tar.gz" }
    RepoInfo := { RepoRoot := "" } }

/-- A provenance statement whose builder-image digest matches its image
reference and whose source carries a sha1 digest. -/
def w9statement : ProvenanceStatementSLSA1 :=
  { Predicate :=
    { BuildDefinition :=
      { BuildType := ContainerBasedBuildType
        ExternalParameters :=
          { Source := { URI := "https://github.com/org/repo"
                        Digest := [("sha1", "aaaa")] }
            BuilderImage := { URI := "img@sha256:bb"
                              Digest := [("sha256", "bb")] }
            ConfigPath := "build.toml"
            Config := { Command := ["make"], ArtifactPath := "dist/*.tar.gz" } }
        ResolvedDependencies := [] } } }

/-- A filesystem whose glob always reports a malformed pattern. -/
def w10fs : FsEnv :=
  { glob := fun _ => .error ()
    readFile := fun _ => .ok [1, 2]
    sha256 := fun _ => [171]
    abs := fun p => .ok p
    rel := fun _ p => .ok p
    createAndWrite := fun _ _ _ => .ok () }

/-- An orchestrator environment for the malformed-pattern claim. -/
def w10env : Env :=
  { git := w2env
    loadBuildConfig := .ok { Command := ["make"], ArtifactPath := "dist/[" }
    fs := w10fs
    dockerRunOk := true }

/-- The builder under test for the malformed-pattern claim. -/
def w10builder : Builder :=
  { repoFetcher := w2client
    config := w3cfg }

/-! ## Helper lemmas -/

/-- Canonicalization leaves an array of JSON strings unchanged. -/
theorem canonList_map_str (xs : List String) :
    canonList (xs.map Json.str) = xs.map Json.str := by
  induction xs with
  | nil => simp [canonList]
  | cons x xs ih => simp [canonList, canonJson, ih]

/-- Decoding an array of JSON strings recovers the original strings. -/
theorem decodeStringElems_map_str (xs : List String) :
    decodeStringElems (xs.map Json.str) = Except.ok xs := by
  induction xs with
  | nil => simp [decodeStringElems]
  | cons x xs ih => simp [decodeStringElems, ih]

/-- Characters of the `net/url` scheme scanner never include a separator, so
a `git+https:`-prefixed URL parses with scheme `git+https`. -/
theorem getScheme_gitHttps (rest : String) :
    getScheme ("git+https:" ++ rest) = .scheme "git+https" := by
  simp +decide [getScheme, getSchemeAux, String.toList, String.data_append]

/-- A `https+git:`-prefixed URL parses with scheme `https+git`. -/
theorem getScheme_httpsGit (rest : String) :
    getScheme ("https+git:" ++ rest) = .scheme "https+git" := by
  simp +decide [getScheme, getSchemeAux, String.toList, String.data_append]

/-- Replacing the first `git+https` in a `git+https:`-prefixed URL rewrites
exactly the scheme and keeps the remainder. -/
theorem replaceFirst_gitHttps (rest : String) :
    replaceFirst ("git+https:" ++ rest) "git+https" "https" = "https:" ++ rest := by
  apply String.ext
  simp +decide [replaceFirst, replaceFirstList, String.toList, String.data_append]

/-- Replacing the first `https+git` in a `https+git:`-prefixed URL rewrites
exactly the scheme and keeps the remainder. -/
theorem replaceFirst_httpsGit (rest : String) :
    replaceFirst ("https+git:" ++ rest) "https+git" "https" = "https:" ++ rest := by
  apply String.ext
  simp +decide [replaceFirst, replaceFirstList, String.toList, String.data_append]

/-- Splitting on a character that does not occur returns the whole list. -/
theorem splitOnCharList_not_mem (sep : Char) (l : List Char) (h : sep ∉ l) :
    splitOnCharList sep l = [l] := by
  induction l with
  | nil => simp [splitOnCharList]
  | cons c rest ih =>
    simp only [List.mem_cons, not_or] at h
    simp [splitOnCharList, ih h.2, Ne.symm h.1, h.1]

/-- A fresh fetch runs only git processes, never the container runtime. -/
theorem no_docker_fetchSources (env : GitEnv) (c : GitClient) :
    Effect.dockerRun ∉ (GitClient.fetchSourcesFromGitRepo env c).2 := by
  unfold GitClient.fetchSourcesFromGitRepo
  repeat' split
  all_goals simp

/-- Verifying or fetching the repo runs only git processes. -/
theorem no_docker_verifyOrFetch (env : GitEnv) (c : GitClient) :
    Effect.dockerRun ∉ (GitClient.verifyOrFetchRepo env c).2 := by
  unfold GitClient.verifyOrFetchRepo
  split
  · simp
  · split
    · split
      · simp
      · exact no_docker_fetchSources env c
    · split
      · exact no_docker_fetchSources env c
      · simp

/-- `GitClient.Fetch` never invokes the container runtime. -/
theorem fetch_no_dockerRun (env : GitEnv) (c : GitClient) :
    Effect.dockerRun ∉ (GitClient.Fetch env c).2 := by
  have h := no_docker_verifyOrFetch env c
  unfold GitClient.Fetch
  split <;> rename_i heq <;> rw [heq] at h <;> simpa using h

/-- The per-match loop succeeds with one subject per matched file when every
file reads successfully and no output folder is given. -/
theorem processMatches_all_ok (fs : FsEnv) (root : String) (ms : List String)
    (h : ∀ p ∈ ms, ∃ d, fs.readFile p = .ok d) :
    ∃ subjects, processMatches fs "" root ms = .ok subjects ∧
      List.Forall₂ (fun p s => ∃ data, fs.readFile p = Except.ok data ∧
        s = toIntotoSubject fs.sha256 data p) ms subjects := by
  induction ms with
  | nil => exact ⟨[], by simp [processMatches], List.Forall₂.nil⟩
  | cons p rest ih =>
    obtain ⟨d, hd⟩ := h p (List.mem_cons_self p rest)
    obtain ⟨subjects, hps, hfa⟩ := ih (fun q hq => h q (List.mem_cons_of_mem p hq))
    refine ⟨toIntotoSubject fs.sha256 d p :: subjects, ?_, ?_⟩
    · unfold processMatches
      rw [hd]
      simp [hps]
    · exact List.Forall₂.cons ⟨d, hd, rfl⟩ hfa

/-- Every hex digit produced by the encoder is a lowercase hex digit. -/
theorem hexDigit_lower (n : Nat) : isLowerHexDigit (hexDigit n) = true := by
  unfold hexDigit
  have h : n % 16 < 16 := Nat.mod_lt _ (by norm_num)
  interval_cases hn : (n % 16) <;> decide

/-- Every character of a hex-encoded digest is a lowercase hex digit. -/
theorem hexEncode_chars (bytes : List Nat) :
    ∀ ch ∈ (hexEncode bytes).toList, isLowerHexDigit ch = true := by
  unfold hexEncode
  induction bytes with
  | nil => intro ch hch; simp [hexEncodeList, String.toList] at hch
  | cons b rest ih =>
    intro ch hch
    simp only [hexEncodeList, String.toList, List.mem_cons] at hch ih ⊢
    rcases hch with h | h | h
    · rw [h]; exact hexDigit_lower _
    · rw [h]; exact hexDigit_lower _
    · exact ih ch h

/-! ## Claim theorems -/

/-- Claim C1: for every build definition produced by `CreateBuildDefinition`,
serializing its container-based external parameters to JSON and parsing them
back through the provenance parser's external-parameters path yields external
parameters equal to the original, in all four fields (source descriptor,
builder-image descriptor, configPath, config). -/
theorem claim1_external_parameters_roundtrip (db : DockerBuild) :
    parseExternalParameters db.CreateBuildDefinition.ExternalParameters.marshal
      = Except.ok db.CreateBuildDefinition.ExternalParameters := by
  simp [parseExternalParameters, ContainerBasedExternalParameters.marshal,
    ResourceDescriptor.marshal, BuildConfig.marshal, marshalDigestSet,
    canonJson, canonList, canonFields, canonFieldList, mapInsert,
    unmarshalExternalParameters, unmarshalResourceDescriptor, unmarshalBuildConfig,
    unmarshalString, unmarshalStringList, unmarshalDigestSet, lookupField,
    decodeStringElems, decodeStringFields,
    canonList_map_str, decodeStringElems_map_str,
    DockerBuild.CreateBuildDefinition, sourceArtifact, builderImage,
    Digest.ToMap, DockerImage.ToString]

/-- Claim C2 counterexample: with the working directory already checked out
at the requested commit (no ref, sha1 digest), `Fetch` succeeds with zero
clone/checkout invocations, but the returned `RepoCheckoutInfo` has an empty
`RepoRoot` — it does not point at the current working directory
(`/workspace/project` in this environment). -/
theorem claim2_counterexample :
    GitClient.Fetch w2env w2client = (.ok { RepoRoot := "" }, []) ∧
    w2env.cwd = "/workspace/project" ∧
    (RepoCheckoutInfo.mk "").RepoRoot ≠ w2env.cwd := by
  refine ⟨rfl, rfl, by decide⟩

/-- Claim C2 (amended): if the current working directory is already a git
checkout at commit `H`, no source ref is specified, and the requested sha1
digest value is also `H`, then `Fetch` succeeds, performs zero clone and
zero checkout invocations, and returns the client's initial
`RepoCheckoutInfo`, whose `RepoRoot` is the empty string (`newGitClient`
initialises it so and the no-fetch path never sets it). -/
theorem claim2_fetch_checked_out_noop (env : GitEnv) (c : GitClient) (out : String)
    (halg : c.sourceDigest.Alg = "sha1")
    (href : c.sourceRef = none)
    (hroot : c.repoRoot = "")
    (hforce : c.forceCheckout = false)
    (hhead : env.pre.revParseHEAD = some out)
    (hval : trimSpace out = c.sourceDigest.Value) :
    GitClient.Fetch env c = (.ok { RepoRoot := "" }, []) := by
  unfold GitClient.Fetch GitClient.verifyOrFetchRepo GitClient.verifyRefAndCommit
  simp [halg, href, hroot, hforce, hhead, hval]

/-- Witness for claim C2's amended theorem at a concrete checkout. -/
theorem claim2_witness :
    GitClient.Fetch w2env w2client = (.ok { RepoRoot := "" }, []) :=
  claim2_fetch_checked_out_noop w2env w2client "aaaa\n" rfl rfl rfl rfl rfl (by decide)

/-- Claim C3: a source URI with scheme `git+https` or `https+git` has the
scheme rewritten to `https` with the rest of the URI preserved byte for
byte; when the URI contains no `@` the constructed client carries exactly
the rewritten URI and no ref; and a URI whose parsed scheme is neither
`https`, `git+https` nor `https+git` (including the empty scheme) fails
construction with an unsupported-scheme error. -/
theorem claim3_scheme_normalization (cfg : DockerBuildConfig) (depth : Int) :
    (∀ rest, cfg.SourceRepo = "git+https:" ++ rest →
        normalizeScheme cfg.SourceRepo = .ok ("https:" ++ rest)) ∧
    (∀ rest, cfg.SourceRepo = "https+git:" ++ rest →
        normalizeScheme cfg.SourceRepo = .ok ("https:" ++ rest)) ∧
    (∀ rest, cfg.SourceRepo = "git+https:" ++ rest →
        (Char.ofNat 64) ∉ rest.toList →
        newGitClient cfg depth = .ok
          { sourceRepo := "https:" ++ rest, sourceRef := none,
            sourceDigest := cfg.SourceDigest, forceCheckout := cfg.ForceCheckout,
            verbose := cfg.Verbose, depth := depth, repoRoot := "" }) ∧
    (∀ s, getScheme cfg.SourceRepo = .scheme s →
        s ∉ (["https", "git+https", "https+git"] : List String) →
        newGitClient cfg depth = .error (.unsupportedScheme s)) ∧
    (getScheme cfg.SourceRepo = .noScheme →
        newGitClient cfg depth = .error (.unsupportedScheme "")) := by
  refine ⟨?_, ?_, ?_, ?_, ?_⟩
  · intro rest h
    rw [h]
    simp +decide [normalizeScheme, getScheme_gitHttps, replaceFirst_gitHttps]
  · intro rest h
    rw [h]
    simp +decide [normalizeScheme, getScheme_httpsGit, replaceFirst_httpsGit]
  · intro rest h hat
    have hrepo : normalizeScheme cfg.SourceRepo = .ok ("https:" ++ rest) := by
      rw [h]
      simp +decide [normalizeScheme, getScheme_gitHttps, replaceFirst_gitHttps]
    have hnm : (Char.ofNat 64) ∉ ("https:" ++ rest).toList := by
      simp only [String.toList, String.data_append, List.mem_append, not_or]
      exact ⟨by decide, hat⟩
    have hsplit : splitOnChar (Char.ofNat 64) ("https:" ++ rest) = ["https:" ++ rest] := by
      unfold splitOnChar
      rw [splitOnCharList_not_mem _ _ hnm]
      rfl
    simp [newGitClient, hrepo, hsplit]
  · intro s hs hmem
    simp only [List.mem_cons, List.mem_singleton, not_or] at hmem
    obtain ⟨h1, h2, h3⟩ := hmem
    simp [newGitClient, normalizeScheme, hs, h1, h2, h3]
  · intro hs
    simp [newGitClient, normalizeScheme, hs]

/-- Witness for claim C3 at a concrete `git+https` URI. -/
theorem claim3_witness :
    normalizeScheme w3cfg.SourceRepo = .ok ("https:" ++ "//github.com/org/repo") :=
  (claim3_scheme_normalization w3cfg 0).1 "//github.com/org/repo" (by decide)

/-- Claim C4: if the working directory is a git checkout whose HEAD (or,
when a source ref is specified, the commit that ref resolves to) differs
from the requested digest value, and force-checkout is unset, then `Fetch`
fails with a commit-mismatch error carrying the differing commit and
performs no external git process (no fresh fetch). -/
theorem claim4_commit_mismatch (env : GitEnv) (c : GitClient)
    (halg : c.sourceDigest.Alg = "sha1")
    (hforce : c.forceCheckout = false)
    (hmx : (∃ out, env.pre.revParseHEAD = some out ∧
        trimSpace out ≠ c.sourceDigest.Value) ∨
      (∃ out ref out₂, env.pre.revParseHEAD = some out ∧
        trimSpace out = c.sourceDigest.Value ∧ c.sourceRef = some ref ∧
        env.pre.showRef ref = some out₂ ∧ trimSpace out₂ ≠ c.sourceDigest.Value)) :
    ∃ got, GitClient.Fetch env c = (.error (.commitMismatch got), []) ∧
      got ≠ c.sourceDigest.Value := by
  rcases hmx with ⟨out, hhead, hne⟩ | ⟨out, ref, out₂, hhead, heq, href, href2, hne⟩
  · refine ⟨trimSpace out, ?_, hne⟩
    unfold GitClient.Fetch GitClient.verifyOrFetchRepo GitClient.verifyRefAndCommit
    simp [halg, hforce, hhead, hne]
  · refine ⟨trimSpace out₂, ?_, hne⟩
    unfold GitClient.Fetch GitClient.verifyOrFetchRepo GitClient.verifyRefAndCommit
    simp [halg, hforce, hhead, heq, href, href2, hne]

/-- Witness for claim C4: a checkout at `bbbb` with requested commit `aaaa`. -/
theorem claim4_witness :
    ∃ got, GitClient.Fetch w4env w4client = (.error (.commitMismatch got), []) ∧
      got ≠ w4client.sourceDigest.Value :=
  claim4_commit_mismatch w4env w4client rfl rfl (Or.inl ⟨"bbbb\n", rfl, by decide⟩)

/-- Claim C5: for every source digest whose algorithm is not sha1, `Fetch`
fails with the configuration error before any verification or clone: the
result is the same in every environment and the effect trace is empty. -/
theorem claim5_non_sha1_digest (env : GitEnv) (c : GitClient)
    (h : c.sourceDigest.Alg ≠ "sha1") :
    GitClient.Fetch env c = (.error .nonSha1Digest, []) := by
  unfold GitClient.Fetch GitClient.verifyOrFetchRepo
  simp [h]

/-- Witness for claim C5 at a sha256 source digest. -/
theorem claim5_witness :
    GitClient.Fetch w4env w5client = (.error .nonSha1Digest, []) :=
  claim5_non_sha1_digest w4env w5client (by decide)

/-- Claim C6: when the artifact glob pattern matches one or more existing
files at setup time, `SetUpBuildState` fails with the pre-existing-artifact
error and its effect trace (the fetch trace) contains no container
invocation; when the pattern matches zero files the pre-flight check
succeeds. -/
theorem claim6_preexisting_artifact (env : Env) (b : Builder) (bc : BuildConfig)
    (info : RepoCheckoutInfo) (tr : List Effect) (found : List String)
    (hfetch : GitClient.Fetch env.git b.repoFetcher = (.ok info, tr))
    (hload : env.loadBuildConfig = .ok bc)
    (hglob : env.fs.glob bc.ArtifactPath = .ok found) :
    (found ≠ [] →
      b.SetUpBuildState env =
        (.error (.preexistingArtifact bc.ArtifactPath found.length), tr) ∧
      Effect.dockerRun ∉ tr) ∧
    (found = [] → CheckExistingFiles env.fs.glob bc.ArtifactPath = .ok ()) := by
  constructor
  · intro hne
    have hnd := fetch_no_dockerRun env.git b.repoFetcher
    rw [hfetch] at hnd
    refine ⟨?_, by simpa using hnd⟩
    unfold Builder.SetUpBuildState
    rw [hfetch, hload]
    simp [CheckExistingFiles, hglob, List.length_eq_zero, hne]
  · intro hz
    unfold CheckExistingFiles
    rw [hglob, hz]
    simp

/-- Witness for claim C6: one pre-existing artifact aborts setup with no
container invocation. -/
theorem claim6_witness :
    w6builder.SetUpBuildState w6env =
      (.error (.preexistingArtifact "dist/*.tar.gz" 1), []) ∧
    Effect.dockerRun ∉ ([] : List Effect) :=
  (claim6_preexisting_artifact w6env w6builder
    { Command := ["make"], ArtifactPath := "dist/*.tar.gz" }
    { RepoRoot := "" } [] ["dist/app.tar.gz"] rfl rfl rfl).1 (by decide)

/-- Claim C7: after a successful containerized build, a glob with zero
matches makes `BuildArtifacts` fail with the no-artifacts-produced error,
while a glob with `n ≥ 1` matches (with readable files, no output folder)
yields exactly `n` subjects, one per matched file, each carrying the hex
SHA256 digest of that file's bytes; and the hex encoding only ever emits
lowercase hex digits. -/
theorem claim7_build_artifacts (env : Env) (db : DockerBuild)
    (outputFolder : String) (ms : List String)
    (hdocker : env.dockerRunOk = true)
    (hglob : env.fs.glob db.buildConfig.ArtifactPath = .ok ms) :
    (ms = [] → db.BuildArtifacts env outputFolder =
      (.error (.noArtifactsProduced db.buildConfig.ArtifactPath), [.dockerRun])) ∧
    (ms ≠ [] → outputFolder = "" → (∀ p ∈ ms, ∃ d, env.fs.readFile p = .ok d) →
      ∃ subjects, db.BuildArtifacts env outputFolder = (.ok subjects, [.dockerRun]) ∧
        subjects.length = ms.length ∧
        List.Forall₂ (fun p s => ∃ data, env.fs.readFile p = Except.ok data ∧
          s = toIntotoSubject env.fs.sha256 data p) ms subjects) ∧
    (∀ bytes ch, ch ∈ (hexEncode bytes).toList → isLowerHexDigit ch = true) := by
  refine ⟨?_, ?_, fun bytes => hexEncode_chars bytes⟩
  · intro hz
    subst hz
    unfold DockerBuild.BuildArtifacts runDockerRun inspectAndWriteArtifacts
    simp [hdocker, hglob]
  · intro hne hof hreads
    subst hof
    obtain ⟨subjects, hps, hfa⟩ :=
      processMatches_all_ok env.fs db.RepoInfo.RepoRoot ms hreads
    refine ⟨subjects, ?_, hfa.length_eq.symm, hfa⟩
    unfold DockerBuild.BuildArtifacts runDockerRun inspectAndWriteArtifacts
    rw [hglob]
    simp [hdocker, hps, List.length_eq_zero, hne]

/-- Witness for claim C7: one matched file yields one subject. -/
theorem claim7_witness :
    ∃ subjects, w7db.BuildArtifacts w7env "" = (.ok subjects, [.dockerRun]) ∧
      subjects.length = (["dist/app.tar.gz"] : List String).length ∧
      List.Forall₂ (fun p s => ∃ data, w7env.fs.readFile p = Except.ok data ∧
        s = toIntotoSubject w7env.fs.sha256 data p) ["dist/app.tar.gz"] subjects :=
  (claim7_build_artifacts w7env w7db "" ["dist/app.tar.gz"] rfl rfl).2.1
    (by decide) rfl (fun p _ => ⟨[1, 2], rfl⟩)

/-- Claim C9: rebuilding a `DockerBuildConfig` from parsed provenance fails
with the invalid-image-digest error whenever the digest declared in the
builder-image reference differs from the digest recorded in the descriptor's
digest map, fails with the missing-source-digest error whenever the source
descriptor has no sha1 digest, and otherwise returns a configuration whose
source repo, sha1 source digest, builder image and config path equal those
of the provenance's external parameters. -/
theorem claim9_to_docker_build_config (p : ProvenanceStatementSLSA1) (fc : Bool) :
    (∀ di, validateDockerImage
        p.Predicate.BuildDefinition.ExternalParameters.BuilderImage.URI = .ok di →
      di.Digest.Value ≠ (digestLookup
          p.Predicate.BuildDefinition.ExternalParameters.BuilderImage.Digest
          di.Digest.Alg).getD "" →
      p.ToDockerBuildConfig fc = .error .invalidImageDigest) ∧
    (∀ di, validateDockerImage
        p.Predicate.BuildDefinition.ExternalParameters.BuilderImage.URI = .ok di →
      di.Digest.Value = (digestLookup
          p.Predicate.BuildDefinition.ExternalParameters.BuilderImage.Digest
          di.Digest.Alg).getD "" →
      digestLookup p.Predicate.BuildDefinition.ExternalParameters.Source.Digest "sha1"
        = none →
      p.ToDockerBuildConfig fc = .error .missingSourceDigest) ∧
    (∀ di v, validateDockerImage
        p.Predicate.BuildDefinition.ExternalParameters.BuilderImage.URI = .ok di →
      di.Digest.Value = (digestLookup
          p.Predicate.BuildDefinition.ExternalParameters.BuilderImage.Digest
          di.Digest.Alg).getD "" →
      digestLookup p.Predicate.BuildDefinition.ExternalParameters.Source.Digest "sha1"
        = some v →
      p.ToDockerBuildConfig fc = .ok
        { SourceRepo := p.Predicate.BuildDefinition.ExternalParameters.Source.URI
          SourceDigest := { Alg := "sha1", Value := v }
          BuilderImage := di
          BuildConfigPath := p.Predicate.BuildDefinition.ExternalParameters.ConfigPath
          ForceCheckout := fc
          Verbose := false }) := by
  refine ⟨?_, ?_, ?_⟩
  · intro di hval hne
    unfold ProvenanceStatementSLSA1.ToDockerBuildConfig
    simp [hval, hne]
  · intro di hval heq hmiss
    unfold ProvenanceStatementSLSA1.ToDockerBuildConfig
    simp [hval, heq, hmiss]
  · intro di v hval heq hsome
    unfold ProvenanceStatementSLSA1.ToDockerBuildConfig
    simp [hval, heq, hsome]

/-- Witness for claim C9: a consistent provenance statement reconstructs the
expected configuration. -/
theorem claim9_witness :
    w9statement.ToDockerBuildConfig false = .ok
      { SourceRepo := "https://github.com/org/repo"
        SourceDigest := { Alg := "sha1", Value := "aaaa" }
        BuilderImage := { Name := "img", Digest := { Alg := "sha256", Value := "bb" } }
        BuildConfigPath := "build.toml"
        ForceCheckout := false
        Verbose := false } :=
  (claim9_to_docker_build_config w9statement false).2.2
    { Name := "img", Digest := { Alg := "sha256", Value := "bb" } } "aaaa"
    (by decide) (by decide) (by decide)

/-- Claim C10: when the artifact glob pattern is malformed, both the
pre-flight check and the post-build inspection fail with the
malformed-pattern error (they never treat it as zero matches), and
`SetUpBuildState` fails likewise with no container invocation. -/
theorem claim10_malformed_pattern (env : Env) (b : Builder) (bc : BuildConfig)
    (outputFolder root : String)
    (hbad : env.fs.glob bc.ArtifactPath = .error ()) :
    CheckExistingFiles env.fs.glob bc.ArtifactPath
      = .error (.malformedPattern bc.ArtifactPath) ∧
    inspectAndWriteArtifacts env.fs bc.ArtifactPath outputFolder root
      = .error (.malformedPattern bc.ArtifactPath) ∧
    (∀ info tr, GitClient.Fetch env.git b.repoFetcher = (.ok info, tr) →
      env.loadBuildConfig = .ok bc →
      b.SetUpBuildState env = (.error (.malformedPattern bc.ArtifactPath), tr) ∧
      Effect.dockerRun ∉ tr) := by
  refine ⟨?_, ?_, ?_⟩
  · unfold CheckExistingFiles
    rw [hbad]
  · unfold inspectAndWriteArtifacts
    rw [hbad]
  · intro info tr hfetch hload
    have hnd := fetch_no_dockerRun env.git b.repoFetcher
    rw [hfetch] at hnd
    refine ⟨?_, by simpa using hnd⟩
    unfold Builder.SetUpBuildState
    rw [hfetch, hload]
    simp [CheckExistingFiles, hbad]

/-- Witness for claim C10: a malformed pattern aborts setup before any
container invocation. -/
theorem claim10_witness :
    w10builder.SetUpBuildState w10env = (.error (.malformedPattern "dist/["), []) ∧
    Effect.dockerRun ∉ ([] : List Effect) :=
  (claim10_malformed_pattern w10env w10builder
    { Command := ["make"], ArtifactPath := "dist/[" } "" "" rfl).2.2
    { RepoRoot := "" } [] rfl rfl

end SlsaGen
